import Mathlib

/-!
Shallow embedding of the lisp-rust repository (lexer, parser, AST/value
model, scope chain, evaluator) and verification of the specification's
claims about it.

Conventions used throughout:
* Rust `Result<T, E>` together with the possibility of a process panic
  (`unwrap`, `unimplemented!`, out-of-bounds indexing) is embedded as the
  four-constructor type `Res`: `ok`, `err`, `panic`, and `timeout`, the
  last being an artifact of bounding loops and recursion by explicit fuel
  (the Rust code recurses on the host stack without any bound).
* `f64` is embedded symbolically by `F64`: finite values carry the exact
  rational denoted by their decimal text (binary rounding is not
  modelled, no claim depends on it), infinities and NaN are separate
  constructors with IEEE comparison semantics where the code compares.
* `HashMap<String, V>` is embedded as an association list with unique
  keys; `insert` replaces the binding of an existing key in place.
-/

namespace Lisp

/-- Outcome of running embedded Rust code: a `Result` value, a `Result`
error, a process panic, or exhaustion of the embedding's fuel. -/
inductive Res (ε α : Type) where
  | ok (a : α)
  | err (e : ε)
  | panic (msg : String)
  | timeout
deriving DecidableEq

instance : Monad (Res ε) where
  pure := Res.ok
  bind r f :=
    match r with
    | .ok a => f a
    | .err e => .err e
    | .panic m => .panic m
    | .timeout => .timeout

/-- Embedding of `f64`. `finite q` stands for a finite double whose
decimal text denotes the rational `q` exactly (the rounding to binary is
not modelled; no claim inspects a value where it would matter). -/
inductive F64 where
  | finite (q : ℚ)
  | infinite (neg : Bool)
  | nan
deriving DecidableEq

/-- Unary negation of a double, used for the lexer's leading `-` sign. -/
def F64.neg : F64 → F64
  | .finite q => .finite (-q)
  | .infinite s => .infinite (!s)
  | .nan => .nan

/-- IEEE-754 equality test (`==` on `f64`): NaN is unequal to everything,
including itself; `-0.0 == 0.0` holds (rationals identify the two). -/
def F64.ieeeEq : F64 → F64 → Bool
  | .finite a, .finite b => a = b
  | .infinite a, .infinite b => a = b
  | _, _ => false

/-- IEEE-754 inequality test (`!=` on `f64`). -/
def F64.ieeeNe (a b : F64) : Bool := !(F64.ieeeEq a b)

/-- ASCII digit test; embeds the digit check done by Rust's float
parser, which only accepts ASCII digits. -/
def isAsciiDigit (c : Char) : Bool := c.isDigit

/-- Numeric value of a run of ASCII digits. -/
def digitsToNat (ds : List Char) : Nat :=
  ds.foldl (fun a c => a * 10 + (c.toNat - '0'.toNat)) 0

/-- Rational denoted by integer digits `d1`, fractional digits `d2` and
a decimal exponent `e`. -/
def decToRat (d1 d2 : List Char) (e : Int) : ℚ :=
  ((digitsToNat d1 * 10 ^ d2.length + digitsToNat d2 : ℕ) : ℚ) *
    (10 : ℚ) ^ (e - (d2.length : ℤ))

/-- Embedding of `str::parse::<f64>()` after the optional sign: either a
special value (`inf`, `infinity`, `nan`, ASCII case-insensitive) or a
decimal significand with optional fraction and optional exponent, per
the documented `FromStr` grammar for `f64`. Returns `none` on any text
the Rust parser rejects. -/
def parseF64Core (cs : List Char) : Option F64 :=
  let lower := cs.map Char.toLower
  if lower = "inf".toList ∨ lower = "infinity".toList then
    some (.infinite false)
  else if lower = "nan".toList then
    some .nan
  else
    let p1 := cs.span isAsciiDigit
    let d1 := p1.1
    let hasDot := p1.2.head? = some '.'
    let afterDot := if hasDot then p1.2.tail else p1.2
    let p2 := if hasDot then afterDot.span isAsciiDigit else ([], afterDot)
    let d2 := p2.1
    let rest := p2.2
    if d1.isEmpty ∧ d2.isEmpty then none
    else
      match rest with
      | [] => some (.finite (decToRat d1 d2 0))
      | e :: t =>
        if e = 'e' ∨ e = 'E' then
          let sgn : Bool × List Char :=
            match t with
            | '+' :: u => (false, u)
            | '-' :: u => (true, u)
            | u => (false, u)
          let p3 := sgn.2.span isAsciiDigit
          if p3.1.isEmpty ∨ ¬p3.2.isEmpty then none
          else
            let ex : Int := if sgn.1 then -(digitsToNat p3.1 : Int) else (digitsToNat p3.1 : Int)
            some (.finite (decToRat d1 d2 ex))
        else none

/-- Embedding of `str::parse::<f64>()`: optional `+`/`-` sign followed by
the grammar of `parseF64Core`. -/
def parseF64 (s : String) : Option F64 :=
  match s.toList with
  | '+' :: rest => parseF64Core rest
  | '-' :: rest => (parseF64Core rest).map F64.neg
  | cs => parseF64Core cs

/-- Embedding of `str::parse::<bool>()`: exactly `true` or `false`. -/
def parseRustBool (s : String) : Option Bool :=
  if s = "true" then some true
  else if s = "false" then some false
  else none

/-- Rust `char::is_whitespace` (the Unicode `White_Space` property). -/
def rustIsWhitespace (c : Char) : Bool :=
  let n := c.toNat
  n == 9 || n == 10 || n == 11 || n == 12 || n == 13 || n == 32 ||
  n == 133 || n == 160 || n == 0x1680 ||
  (decide (0x2000 ≤ n) && decide (n ≤ 0x200A)) ||
  n == 0x2028 || n == 0x2029 || n == 0x202F || n == 0x205F || n == 0x3000

/-- Rust `char::is_numeric`, restricted to ASCII digits. (The Rust
predicate also accepts non-ASCII Unicode numeric characters; no claim
depends on inputs containing those, so they are not modelled.) -/
def rustIsNumeric (c : Char) : Bool := c.isDigit

/-- Alias for `Bool`, usable as a field type inside inductives that
declare a constructor named `Bool`. -/
abbrev BoolT := Bool

/-- Alias for `String`, usable as a field type inside inductives that
declare a constructor named `String`. -/
abbrev StringT := String

/-- Alias for `List`, usable as a field type inside inductives that
declare a constructor named `List`. -/
abbrev ListT := List

/-- Token kind produced by the lexer (`lexer.rs`). -/
inductive Token where
  | OpenParen
  | CloseParen
  | OpenBracket
  | CloseBracket
  | OpenBrace
  | CloseBrace
  | Dot
  | Identifier (s : StringT)
  | Number (n : F64)
  | String (s : StringT)
  | Bool (b : BoolT)
  | EOF
deriving DecidableEq

/-- Lexer error kinds (`lexer.rs`). -/
inductive LexerError where
  | InvalidCharacter (c : Char)
  | InvalidIdentifier (s : String)
  | InvalidNumber (s : String)
  | UnclosedString (s : String)
deriving DecidableEq

/-- Recogniser for the end-of-input token. -/
def Token.isEOFTok : Token → BoolT
  | .EOF => true
  | _ => false

/-- Lexer state: the input (kept as its character sequence), the cursor
`read_position`, and the current character `ch`. -/
structure Lexer where
  input : List Char
  read_position : Nat
  ch : Option Char
deriving DecidableEq

/-- Rust `String::len` of the input: its UTF-8 byte length. -/
def strByteLen (cs : List Char) : Nat := (cs.map Char.utf8Size).sum

/-- Embedding of `Lexer::read_char`. The cursor is compared against the
byte length while `chars().nth` counts characters, so on non-ASCII input
the `unwrap` can fail: that case is a panic. -/
def Lexer.read_char (l : Lexer) : Res LexerError Lexer :=
  if strByteLen l.input ≤ l.read_position then
    .ok { l with ch := none, read_position := l.read_position + 1 }
  else
    match l.input.get? l.read_position with
    | some c => .ok { l with ch := some c, read_position := l.read_position + 1 }
    | none => .panic "called Option unwrap on a None value"

/-- Embedding of `Lexer::new`: the fields, then one `read_char`. At
position 0 that `read_char` sets `ch` to the first character when there
is one (its `unwrap` cannot fail there: a byte-nonempty string has a
first character), so the result is written directly. -/
def Lexer.new (input : String) : Lexer :=
  { input := input.toList, read_position := 1, ch := input.toList.head? }

/-- Embedding of `Lexer::is_language_symbol`. -/
def isLanguageSymbol (c : Char) : Bool :=
  c = '(' || c = ')' || c = '[' || c = ']' || c = '{' || c = '}' || c = '.'

/-- Loop of `Lexer::skip_whitespace`, bounded by fuel. -/
def Lexer.skipWhitespaceGo : Nat → Lexer → Res LexerError Lexer
  | 0, _ => .timeout
  | fuel + 1, l =>
    match l.ch with
    | some c =>
      if rustIsWhitespace c then do
        let l' ← l.read_char
        Lexer.skipWhitespaceGo fuel l'
      else .ok l
    | none => .ok l

/-- Embedding of `Lexer::skip_whitespace`. -/
def Lexer.skip_whitespace (l : Lexer) : Res LexerError Lexer :=
  Lexer.skipWhitespaceGo (strByteLen l.input + 2) l

/-- Loop of `Lexer::read_identifier`, bounded by fuel. -/
def Lexer.readIdentifierGo : Nat → Lexer → String → Res LexerError (String × Lexer)
  | 0, _, _ => .timeout
  | fuel + 1, l, acc =>
    match l.ch with
    | some c =>
      if ¬rustIsWhitespace c ∧ ¬isLanguageSymbol c then do
        let l' ← l.read_char
        Lexer.readIdentifierGo fuel l' (acc.push c)
      else .ok (acc, l)
    | none => .ok (acc, l)

/-- Embedding of `Lexer::read_identifier`. -/
def Lexer.read_identifier (l : Lexer) : Res LexerError (String × Lexer) :=
  Lexer.readIdentifierGo (strByteLen l.input + 2) l ""

/-- Loop of `Lexer::read_number`, bounded by fuel: reads greedily up to
whitespace or a delimiter other than `.`. -/
def Lexer.readNumberGo : Nat → Lexer → String → Res LexerError (String × Lexer)
  | 0, _, _ => .timeout
  | fuel + 1, l, acc =>
    match l.ch with
    | some c =>
      if rustIsWhitespace c ∨ (isLanguageSymbol c ∧ c ≠ '.') then .ok (acc, l)
      else do
        let l' ← l.read_char
        Lexer.readNumberGo fuel l' (acc.push c)
    | none => .ok (acc, l)

/-- Embedding of `Lexer::read_number`: accumulate the text, then parse
it as an `f64` or fail with `InvalidNumber`. -/
def Lexer.read_number (l : Lexer) : Res LexerError (F64 × Lexer) := do
  let (s, l') ← Lexer.readNumberGo (strByteLen l.input + 2) l ""
  match parseF64 s with
  | some n => .ok (n, l')
  | none => .err (.InvalidNumber ("Error parsing number : " ++ s))

/-- Loop of `Lexer::read_string`, bounded by fuel: consume verbatim
until a closing quote; end of input first is `UnclosedString`. -/
def Lexer.readStringGo : Nat → Lexer → String → Res LexerError (String × Lexer)
  | 0, _, _ => .timeout
  | fuel + 1, l, acc =>
    match l.ch with
    | some c =>
      if c = '"' then do
        let l' ← l.read_char
        .ok (acc, l')
      else do
        let l' ← l.read_char
        Lexer.readStringGo fuel l' (acc.push c)
    | none => .err (.UnclosedString ("Unclosed string : " ++ acc))

/-- Embedding of `Lexer::read_string`: skip the opening quote, then the
loop. -/
def Lexer.read_string (l : Lexer) : Res LexerError (String × Lexer) := do
  let l' ← l.read_char
  Lexer.readStringGo (strByteLen l.input + 2) l' ""

/-- Embedding of `Lexer::next_token`. -/
def Lexer.next_token (l : Lexer) : Res LexerError (Token × Lexer) := do
  let l ← l.skip_whitespace
  match l.ch with
  | none => .ok (.EOF, l)
  | some ch =>
    if ch = '{' then do
      let l ← l.read_char
      .ok (.OpenBrace, l)
    else if ch = '}' then do
      let l ← l.read_char
      .ok (.CloseBrace, l)
    else if ch = '(' then do
      let l ← l.read_char
      .ok (.OpenParen, l)
    else if ch = ')' then do
      let l ← l.read_char
      .ok (.CloseParen, l)
    else if ch = '[' then do
      let l ← l.read_char
      .ok (.OpenBracket, l)
    else if ch = ']' then do
      let l ← l.read_char
      .ok (.CloseBracket, l)
    else if ch = '.' then do
      let l ← l.read_char
      .ok (.Dot, l)
    else if ch = '-' then do
      let l ← l.read_char
      let (n, l) ← l.read_number
      .ok (.Number n.neg, l)
    else if ch = '"' then do
      let (s, l) ← l.read_string
      .ok (.String s, l)
    else if rustIsNumeric ch then do
      let (n, l) ← l.read_number
      .ok (.Number n, l)
    else do
      let (ident, l) ← l.read_identifier
      if ident = "true" then .ok (.Bool true, l)
      else if ident = "false" then .ok (.Bool false, l)
      else .ok (.Identifier ident, l)

/-- Loop of `Lexer::tokenize`, bounded by fuel: push each token; after
pushing an `EOF` token, stop. -/
def Lexer.tokenizeLoop : Nat → Lexer → List Token → Res LexerError (List Token)
  | 0, _, _ => .timeout
  | fuel + 1, l, acc =>
    match l.next_token with
    | .ok (tok, l') =>
      if tok = Token.EOF then .ok (acc ++ [tok])
      else Lexer.tokenizeLoop fuel l' (acc ++ [tok])
    | .err e => .err e
    | .panic m => .panic m
    | .timeout => .timeout

/-- Embedding of `Lexer::tokenize`. Every produced token consumes at
least one input character, so byte length + 2 steps of fuel suffice. -/
def Lexer.tokenize (l : Lexer) : Res LexerError (List Token) :=
  Lexer.tokenizeLoop (strByteLen l.input + 2) l []

mutual

/-- Runtime values (`nodes.rs`). `List` stores unevaluated element
nodes; `Map` embeds `HashMap<String, Value>` as an association list. -/
inductive Value where
  | Number (n : F64)
  | String (s : String)
  | Boolean (b : Bool)
  | List (l : List Node)
  | Map (m : List (String × Value))
  | Function (f : Function)
  | Null

/-- Function values (`nodes.rs`): native or user-defined. -/
inductive Function where
  | Native (f : NativeFunction)
  | UserDefined (f : UserDefinedFunction)

/-- User-defined function: parameter names and a body node sequence. -/
inductive UserDefinedFunction where
  | mk (args : List String) (body : List Node)

/-- Native function: name, parameter names, and the host callback. The
Rust field `func` is a function pointer; it is embedded as a key
(`funcId`) resolved in a host-callback table that the evaluator takes as
a parameter, so that values stay a first-order datatype. -/
inductive NativeFunction where
  | mk (name : String) (args : List String) (funcId : String)

/-- Syntax tree nodes (`nodes.rs`). -/
inductive Node where
  | Atom (v : Value)
  | FunctionCall (name : String) (args : List Node)
  | Program (nodes : List Node)
  | Variable (name : String)
  | EOF

end

/-- Parameter names of a user-defined function. -/
def UserDefinedFunction.args : UserDefinedFunction → List String
  | .mk a _ => a

/-- Body nodes of a user-defined function. -/
def UserDefinedFunction.body : UserDefinedFunction → List Node
  | .mk _ b => b

/-- Name of a native function. -/
def NativeFunction.name : NativeFunction → StringT
  | .mk n _ _ => n

/-- Parameter names of a native function. -/
def NativeFunction.args : NativeFunction → List String
  | .mk _ a _ => a

/-- Host-callback key of a native function (the embedded `func` field). -/
def NativeFunction.funcId : NativeFunction → StringT
  | .mk _ _ f => f

/-- Declared parameter names of either function kind; embeds the
`let arg_names = match f` in `Node::evaluate`. -/
def Function.argNames : Lisp.Function → List String
  | .UserDefined f => f.args
  | .Native f => f.args

/-- The host-callback table: resolves the embedded `func` pointer of a
native function to a callback from evaluated arguments to a
value-or-error. -/
abbrev Host := String → List Value → Res String Value

/-- Scope (`interpretator.rs`): a name-to-value map plus an optional
parent. In Rust the parent is a borrowed reference, so a child can read
but never mutate its parent; the embedding stores the parent scope by
value, which has the same observable behaviour. -/
inductive Scope where
  | mk (vars : List (String × Value)) (parent : Option Scope)

/-- The variables map of a scope (the Rust field `variables`; that word
is reserved in Lean, so the binder is called `vars`). -/
def Scope.vars : Scope → List (String × Value)
  | .mk v _ => v

/-- The parent of a scope. -/
def Scope.parent : Scope → Option Scope
  | .mk _ p => p

/-- Embedding of `Scope::new`. -/
def Scope.new (parent : Option Scope) : Scope := .mk [] parent

/-- Lookup in the association list embedding `HashMap::get`. -/
def lookupAssoc : List (String × Value) → String → Option Value
  | [], _ => none
  | (k, v) :: t, name => if k = name then some v else lookupAssoc t name

/-- Insert-or-replace in the association list embedding
`HashMap::insert` (keys stay unique). -/
def insertAssoc : List (String × Value) → String → Value → List (String × Value)
  | [], name, value => [(name, value)]
  | (k, v) :: t, name, value =>
    if k = name then (name, value) :: t else (k, v) :: insertAssoc t name value

/-- Embedding of `Scope::get`: look in the current scope's variables,
then walk outward through the parent chain. -/
def Scope.get : Scope → String → Option Value
  | .mk vars p, name =>
    match lookupAssoc vars name with
    | some v => some v
    | none =>
      match p with
      | some ps => Scope.get ps name
      | none => none

/-- Embedding of `Scope::set`: always writes into the current scope's
own variables map. -/
def Scope.set : Scope → String → Value → Scope
  | .mk vars p, name, value => .mk (insertAssoc vars name value) p

/-- Interpreter error kinds (`interpretator.rs`). -/
inductive InterpretatorError where
  | CastError (s : String)
  | EvaluationError (s : String)
deriving DecidableEq

/-- Embedding of `(*b as i64) as f64` in `cast_to_number`. -/
def boolAsI64AsF64 (b : Bool) : F64 :=
  .finite (((if b then 1 else 0 : Int)) : ℚ)

/-- Decimal text of a double for `to_string`/`Debug` contexts. Rust's
shortest-roundtrip formatting is not modelled digit-for-digit; no claim
inspects this text. -/
def f64Display : F64 → String
  | .finite q => toString q.num ++ (if q.den = 1 then "" else "/" ++ toString q.den)
  | .infinite true => "-inf"
  | .infinite false => "inf"
  | .nan => "NaN"

/-- Embedding of `Value::cast_to_number` (`impl Cast for Value`). -/
def Value.cast_to_number : Value → Except InterpretatorError F64
  | .Number n => .ok n
  | .Boolean b => .ok (boolAsI64AsF64 b)
  | .String s =>
    match parseF64 s with
    | some n => .ok n
    | none => .error (.CastError ("failed to cast " ++ s ++ " to number"))
  | .List _ => .error (.CastError "Cannot cast list to number")
  | .Map _ => .error (.CastError "Cannot cast map to number")
  | .Function _ => .error (.CastError "Cannot cast function to number")
  | .Null => .error (.CastError "Cannot cast null to number")

/-- Embedding of `Value::cast_to_bool` (`impl Cast for Value`). -/
def Value.cast_to_bool : Value → Except InterpretatorError Bool
  | .Number n => .ok (F64.ieeeNe n (.finite 0))
  | .Boolean b => .ok b
  | .String s =>
    match parseRustBool s with
    | some b => .ok b
    | none => .error (.CastError ("failed to cast " ++ s ++ " to bool"))
  | .List _ => .error (.CastError "Cannot cast list to bool")
  | .Map _ => .error (.CastError "Cannot cast map to bool")
  | .Function _ => .error (.CastError "Cannot cast function to bool")
  | .Null => .error (.CastError "Cannot cast null to bool")

/-- Embedding of `Value::cast_to_string` (`impl Cast for Value`). -/
def Value.cast_to_string : Value → Except InterpretatorError StringT
  | .Number n => .ok (f64Display n)
  | .Boolean b => .ok (toString b)
  | .String s => .ok s
  | .List _ => .error (.CastError "Cannot cast list to string")
  | .Map _ => .error (.CastError "Cannot cast map to string")
  | .Function _ => .error (.CastError "Cannot cast function to string")
  | .Null => .error (.CastError "Cannot cast null to string")

/-- The arity-mismatch message built in `Node::evaluate`. -/
def arityMessage (name : String) (expected actual : Nat) : String :=
  "Function " ++ name ++ " takes " ++ toString expected ++
    " arguments, but " ++ toString actual ++ " were given"

mutual

/-- Embedding of `Node::evaluate` (`nodes.rs`). `host` resolves native
callbacks, `fuel` bounds the unbounded host-stack recursion of the Rust
code (exhaustion gives `timeout`, corresponding to stack overflow).
Note two faithful quirks of the source: the `Variable` branch calls
`unwrap` on the scope lookup (a panic when the name is unbound), and the
user-defined call body is evaluated without the `?` operator (each body
node's result overwrites the previous one). -/
def Node.evaluate (host : Host) (fuel : Nat) (node : Node) (scope : Scope) :
    Res StringT Value :=
  match fuel with
  | 0 => .timeout
  | fuel' + 1 =>
    match node with
    | .Atom v => .ok v
    | .FunctionCall name args =>
      match scope.get name with
      | none => .err (name ++ " is not defined")
      | some v =>
        match v with
        | .Function f =>
          let new_scope := Scope.new (some scope)
          let arg_names := f.argNames
          if args.length ≠ arg_names.length then
            .err (arityMessage name arg_names.length args.length)
          else
            match Node.evalArgs host fuel' (args.zip arg_names) scope new_scope [] with
            | .ok (bound_scope, evaluated_args) =>
              match f with
              | .UserDefined udf =>
                Node.evalBody host fuel' udf.body (Scope.new (some bound_scope)) (.ok .Null)
              | .Native nf => host nf.funcId evaluated_args
            | .err e => .err e
            | .panic m => .panic m
            | .timeout => .timeout
        | _ => .err (name ++ " is not a function")
    | .Program nodes => Node.evalProgramNodes host fuel' nodes scope .Null
    | .Variable name =>
      match scope.get name with
      | some v => .ok v
      | none => .panic "called Option unwrap on a None value"
    | .EOF => .ok .Null

/-- The argument loop of `Node::evaluate`'s call branch: evaluate each
argument in the caller's scope (an error aborts, via `?`), bind it to
the matching parameter name in the child scope, and collect the
evaluated values in order. -/
def Node.evalArgs (host : Host) (fuel : Nat) (pairs : List (Node × StringT))
    (caller : Scope) (new_scope : Scope) (acc : List Value) :
    Res StringT (Scope × List Value) :=
  match fuel with
  | 0 => .timeout
  | fuel' + 1 =>
    match pairs with
    | [] => .ok (new_scope, acc)
    | (arg, aname) :: rest =>
      match Node.evaluate host fuel' arg caller with
      | .ok v => Node.evalArgs host fuel' rest caller (new_scope.set aname v) (acc ++ [v])
      | .err e => .err e
      | .panic m => .panic m
      | .timeout => .timeout

/-- The `Program` loop of `Node::evaluate`: evaluate every node in
sequence against the same scope, with `?` (an error aborts), keeping
the final result (`Null` for an empty list). -/
def Node.evalProgramNodes (host : Host) (fuel : Nat) (nodes : List Node)
    (scope : Scope) (acc : Value) : Res StringT Value :=
  match fuel with
  | 0 => .timeout
  | fuel' + 1 =>
    match nodes with
    | [] => .ok acc
    | n :: t =>
      match Node.evaluate host fuel' n scope with
      | .ok v => Node.evalProgramNodes host fuel' t scope v
      | .err e => .err e
      | .panic m => .panic m
      | .timeout => .timeout

/-- The user-defined body loop of `Node::evaluate`'s call branch. It has
no `?`: each node's result overwrites `result`, so an `Err` from a
non-final body node is discarded. Only a panic (or fuel exhaustion)
aborts the loop early. -/
def Node.evalBody (host : Host) (fuel : Nat) (body : List Node)
    (scope : Scope) (result : Res StringT Value) : Res StringT Value :=
  match fuel with
  | 0 => .timeout
  | fuel' + 1 =>
    match body with
    | [] => result
    | n :: t =>
      match Node.evaluate host fuel' n scope with
      | .panic m => .panic m
      | .timeout => .timeout
      | r => Node.evalBody host fuel' t scope r

end

mutual

/-- Embedding of `Value::evaluate` (`nodes.rs`): forces composite
values. Note this function is never invoked by `Node::evaluate`; the
`Atom` branch there returns its value unforced. -/
def Value.evaluate (host : Host) (fuel : Nat) (v : Value) (scope : Scope) :
    Res StringT Value :=
  match fuel with
  | 0 => .timeout
  | fuel' + 1 =>
    match v with
    | .Number n => .ok (.Number n)
    | .String s => .ok (.String s)
    | .Boolean b => .ok (.Boolean b)
    | .List l =>
      match Value.forceListElems host fuel' l scope with
      | .ok nodes => .ok (.List nodes)
      | .err e => .err e
      | .panic m => .panic m
      | .timeout => .timeout
    | .Map m =>
      match Value.forceMapValues host fuel' m scope with
      | .ok entries => .ok (.Map entries)
      | .err e => .err e
      | .panic m => .panic m
      | .timeout => .timeout
    | .Function f => .ok (.Function f)
    | .Null => .ok .Null

/-- The `List` branch of `Value::evaluate`: each element node is
evaluated against the scope and rewrapped as an `Atom`; the Rust code
calls `unwrap` on each element's result, so an element error is a
panic. -/
def Value.forceListElems (host : Host) (fuel : Nat) (l : ListT Node)
    (scope : Scope) : Res StringT (ListT Node) :=
  match fuel with
  | 0 => .timeout
  | fuel' + 1 =>
    match l with
    | [] => .ok []
    | n :: t =>
      match Node.evaluate host fuel' n scope with
      | .ok v =>
        match Value.forceListElems host fuel' t scope with
        | .ok rest => .ok (.Atom v :: rest)
        | .err e => .err e
        | .panic m => .panic m
        | .timeout => .timeout
      | .err e => .panic ("called Result unwrap on an Err value: " ++ e)
      | .panic m => .panic m
      | .timeout => .timeout

/-- The `Map` branch of `Value::evaluate`: each stored value is forced
recursively, keys are kept. -/
def Value.forceMapValues (host : Host) (fuel : Nat)
    (m : ListT (StringT × Value)) (scope : Scope) :
    Res StringT (ListT (StringT × Value)) :=
  match fuel with
  | 0 => .timeout
  | fuel' + 1 =>
    match m with
    | [] => .ok []
    | (k, v) :: t =>
      match Value.evaluate host fuel' v scope with
      | .ok w =>
        match Value.forceMapValues host fuel' t scope with
        | .ok rest => .ok ((k, w) :: rest)
        | .err e => .err e
        | .panic m => .panic m
        | .timeout => .timeout
      | .err e => .err e
      | .panic m => .panic m
      | .timeout => .timeout

end

/-- Parser error kinds (`parser.rs`). -/
inductive ParserError where
  | UnexpectedToken (t : Token) (s : String)
  | UnexpectedEndOfFile
  | ParserStateError (s : String)
deriving DecidableEq

/-- Parser state (`parser.rs`): the token vector and a cursor. -/
structure Parser where
  tokens : List Token
  pos : Nat
deriving DecidableEq

/-- Cursor advance (`self.pos += 1`). -/
def Parser.advance (p : Parser) : Parser := { tokens := p.tokens, pos := p.pos + 1 }

/-- Derived `Debug` text of a token, used in the `is not a variable`
parser error message. Number formatting is not modelled
digit-for-digit; no claim inspects this text. -/
def Token.debugRepr : Token → StringT
  | .OpenParen => "OpenParen"
  | .CloseParen => "CloseParen"
  | .OpenBracket => "OpenBracket"
  | .CloseBracket => "CloseBracket"
  | .OpenBrace => "OpenBrace"
  | .CloseBrace => "CloseBrace"
  | .Dot => "Dot"
  | .Identifier s => "Identifier(\"" ++ s ++ "\")"
  | .Number n => "Number(" ++ f64Display n ++ ")"
  | .String s => "String(\"" ++ s ++ "\")"
  | .Bool b => "Bool(" ++ toString b ++ ")"
  | .EOF => "EOF"

mutual

/-- Embedding of `Parser::parse_node`: dispatch on the current token.
`curr_token` indexes the vector, so an out-of-range cursor is a panic;
the catch-all arm of the Rust match is `unimplemented!()`, also a
panic. -/
def Parser.parse_node (fuel : Nat) (p : Parser) : Res ParserError (Node × Parser) :=
  match fuel with
  | 0 => .timeout
  | fuel' + 1 =>
    match p.tokens.get? p.pos with
    | none => .panic "index out of bounds"
    | some t =>
      match t with
      | .EOF => .ok (.EOF, p.advance)
      | .Number n => .ok (.Atom (.Number n), p.advance)
      | .String s => .ok (.Atom (.String s), p.advance)
      | .Bool b => .ok (.Atom (.Boolean b), p.advance)
      | .Identifier s => .ok (.Variable s, p.advance)
      | .OpenBracket => Parser.parse_list fuel' p.advance []
      | .OpenParen => Parser.parse_function_call fuel' p.advance
      | _ => .panic "not implemented"

/-- Embedding of `Parser::parse_list`: parse nodes until the matching
`]`; parsing the end-of-input sentinel first is `UnexpectedEndOfFile`. -/
def Parser.parse_list (fuel : Nat) (p : Parser) (acc : List Node) :
    Res ParserError (Node × Parser) :=
  match fuel with
  | 0 => .timeout
  | fuel' + 1 =>
    match p.tokens.get? p.pos with
    | none => .panic "index out of bounds"
    | some .CloseBracket => .ok (.Atom (.List acc), p.advance)
    | some _ =>
      match Parser.parse_node fuel' p with
      | .ok (node, p') =>
        match node with
        | .EOF => .err .UnexpectedEndOfFile
        | _ => Parser.parse_list fuel' p' (acc ++ [node])
      | .err e => .err e
      | .panic m => .panic m
      | .timeout => .timeout

/-- Embedding of `Parser::parse_function_call`: the callee position must
parse to a `Variable`, then arguments until the matching `)`. -/
def Parser.parse_function_call (fuel : Nat) (p : Parser) :
    Res ParserError (Node × Parser) :=
  match fuel with
  | 0 => .timeout
  | fuel' + 1 =>
    match Parser.parse_node fuel' p with
    | .ok (name_node, p') =>
      match name_node with
      | .Variable name => Parser.parse_call_args fuel' p' name []
      | _ =>
        match p'.tokens.get? p'.pos with
        | none => .panic "index out of bounds"
        | some t => .err (.UnexpectedToken t (Token.debugRepr t ++ " is not a variable"))
    | .err e => .err e
    | .panic m => .panic m
    | .timeout => .timeout

/-- The argument loop of `Parser::parse_function_call`. -/
def Parser.parse_call_args (fuel : Nat) (p : Parser) (name : String)
    (acc : List Node) : Res ParserError (Node × Parser) :=
  match fuel with
  | 0 => .timeout
  | fuel' + 1 =>
    match p.tokens.get? p.pos with
    | none => .panic "index out of bounds"
    | some .CloseParen => .ok (.FunctionCall name acc, p.advance)
    | some _ =>
      match Parser.parse_node fuel' p with
      | .ok (node, p') =>
        match node with
        | .EOF => .err .UnexpectedEndOfFile
        | _ => Parser.parse_call_args fuel' p' name (acc ++ [node])
      | .err e => .err e
      | .panic m => .panic m
      | .timeout => .timeout

/-- The loop of `Parser::parseProgram`: parse nodes until the token
vector is exhausted, then require the last node to be the end-of-input
sentinel. -/
def Parser.parseProgramLoop (fuel : Nat) (p : Parser) (acc : List Node) :
    Res ParserError (List Node × Parser) :=
  match fuel with
  | 0 => .timeout
  | fuel' + 1 =>
    if p.pos < p.tokens.length then
      match Parser.parse_node fuel' p with
      | .ok (node, p') => Parser.parseProgramLoop fuel' p' (acc ++ [node])
      | .err e => .err e
      | .panic m => .panic m
      | .timeout => .timeout
    else
      match acc.getLast? with
      | some .EOF => .ok (acc, p)
      | some _ => .err (.ParserStateError "Expected EOF")
      | none => .err (.ParserStateError "Empty program")

end

/-- Embedding of `Parser::parseProgram`. The fuel is a generous bound
on the recursion depth and loop steps, all of which consume tokens. -/
def Parser.parseProgram (p : Parser) : Res ParserError (Node × Parser) :=
  match Parser.parseProgramLoop ((p.tokens.length + 2) * (p.tokens.length + 2)) p [] with
  | .ok (nodes, p') => .ok (.Program nodes, p')
  | .err e => .err e
  | .panic m => .panic m
  | .timeout => .timeout

/-- Embedding of `Parser::from_source`: tokenize, then wrap the tokens
with the cursor at 0. -/
def Parser.from_source (source : String) : Res LexerError Parser :=
  match (Lexer.new source).tokenize with
  | .ok tokens => .ok { tokens := tokens, pos := 0 }
  | .err e => .err e
  | .panic m => .panic m
  | .timeout => .timeout

/-- Error channel of `Interpretator::run` (`Box<dyn Error>`
distinguishing the three kinds). -/
inductive RunError where
  | lex (e : LexerError)
  | parse (e : ParserError)
  | interp (e : InterpretatorError)
deriving DecidableEq

/-- Interpreter state (`interpretator.rs`): the persistent global
scope. -/
structure Interpretator where
  global_scope : Scope

/-- Embedding of `Interpretator::new`. -/
def Interpretator.new (global_scope : Option Scope) : Interpretator :=
  { global_scope := match global_scope with | some s => s | none => Scope.new none }

/-- Embedding of `Interpretator::run`: lex, parse, then evaluate the
program against the global scope. `Node::evaluate` takes the scope by
shared reference (`&self.global_scope`), so `run` returns the
interpreter state unchanged; the pair makes that explicit. -/
def Interpretator.run (host : Host) (evalFuel : Nat) (itp : Interpretator)
    (source : String) : Res RunError Value × Interpretator :=
  let r : Res RunError Value :=
    match Parser.from_source source with
    | .err e => .err (.lex e)
    | .panic m => .panic m
    | .timeout => .timeout
    | .ok p =>
      match p.parseProgram with
      | .err e => .err (.parse e)
      | .panic m => .panic m
      | .timeout => .timeout
      | .ok (program, _) =>
        match Node.evaluate host evalFuel program itp.global_scope with
        | .ok v => .ok v
        | .err e => .err (.interp (.EvaluationError e))
        | .panic m => .panic m
        | .timeout => .timeout
  (r, itp)

/-! Helper definitions and lemmas used by the claim theorems. -/

/-- A host-callback table with no native functions: every callback key
reports an error. Used to instantiate closed evaluations. -/
def hostNone : Host := fun _ _ => Res.err "no native"

/-- Whether an outcome is a returned `Err` (as opposed to an `Ok`, a
panic, or fuel exhaustion). -/
def resIsErr {ε α : Type} : Res ε α → Bool
  | .err _ => true
  | _ => false

/-- The tokens reaching the catch-all `unimplemented!()` arm of
`Parser::parse_node`: everything other than end-of-input, the three
literal kinds, an identifier, `[`, and `(`. -/
def isUnimplementedTok : Token → Bool
  | .Dot => true
  | .OpenBrace => true
  | .CloseBrace => true
  | .CloseParen => true
  | .CloseBracket => true
  | _ => false

/-- Whether a cast result is a `CastError`. -/
def isCastError {α : Type} : Except InterpretatorError α → Bool
  | .error (.CastError _) => true
  | _ => false

/-- Whether a cast result is a success. -/
def isOkExcept {α : Type} : Except InterpretatorError α → Bool
  | .ok _ => true
  | .error _ => false

/-- A token other than the end-of-input token is not recognised as one. -/
theorem isEOFTok_eq_false {tok : Token} (h : tok ≠ Token.EOF) :
    Token.isEOFTok tok = false := by
  cases tok <;> simp [Token.isEOFTok] at h ⊢

/-- Shape of a successful `tokenize` loop: it appends some tokens,
none of which is `EOF`, and then a single final `EOF` token. -/
theorem tokenizeLoop_ok (fuel : Nat) :
    ∀ (l : Lexer) (acc toks : List Token),
      Lexer.tokenizeLoop fuel l acc = .ok toks →
      toks.countP Token.isEOFTok = acc.countP Token.isEOFTok + 1 ∧
      toks.getLast? = some Token.EOF := by
  induction fuel with
  | zero =>
    intro l acc toks h
    simp [Lexer.tokenizeLoop] at h
  | succ fuel ih =>
    intro l acc toks h
    simp only [Lexer.tokenizeLoop] at h
    cases hnt : l.next_token with
    | ok pr =>
      obtain ⟨tok, l'⟩ := pr
      rw [hnt] at h
      dsimp only at h
      by_cases he : tok = Token.EOF
      · subst he
        rw [if_pos rfl] at h
        simp only [Res.ok.injEq] at h
        subst h
        constructor
        · simp [List.countP_append, Token.isEOFTok]
        · simp [List.getLast?_concat]
      · rw [if_neg he] at h
        obtain ⟨hc, hl⟩ := ih l' (acc ++ [tok]) toks h
        refine ⟨?_, hl⟩
        rw [hc, List.countP_append]
        simp [isEOFTok_eq_false he]
    | err e => rw [hnt] at h; simp at h
    | panic m => rw [hnt] at h; simp at h
    | timeout => rw [hnt] at h; simp at h

/-- The binding inserted by `insertAssoc` is found by `lookupAssoc`. -/
theorem lookupAssoc_insertAssoc (vars : List (String × Value))
    (name : String) (v : Value) :
    lookupAssoc (insertAssoc vars name v) name = some v := by
  induction vars with
  | nil => simp [insertAssoc, lookupAssoc]
  | cons kv t ih =>
    obtain ⟨k, w⟩ := kv
    by_cases hk : k = name
    · subst hk
      simp [insertAssoc, lookupAssoc]
    · simp [insertAssoc, lookupAssoc, hk, ih]

/-! The claims. -/

/-- C1: the claim says evaluating a `Variable` node whose name is bound
in no scope of the chain returns the runtime error "not defined" without
crashing the process. The code instead calls `unwrap` on the failed
lookup, which panics: here the unbound name `x` in an empty scope gives
the panic, not an `Err`. (The `FunctionCall` branch does return the
"is not defined" error for the same lookup, evidence that the panic is a
slip.) -/
theorem claim1_variable_unbound_panics :
    Scope.get (.mk [] none) "x" = none ∧
    Node.evaluate hostNone 1 (.Variable "x") (.mk [] none) =
      .panic "called Option unwrap on a None value" :=
  ⟨rfl, rfl⟩

/-- C2: the claim says an error raised by any body node of a
user-defined call aborts the call with that error, exactly as in a
`Program`. The code's body loop lacks the `?` operator: each node's
result overwrites the previous one. Here `f`'s body is
`[(g), 1]` with `g` unbound; the first body node evaluates to the error
"g is not defined" (second conjunct), yet the call returns `Ok(1)`
(first conjunct), silently discarding that error. -/
theorem claim2_body_error_discarded :
    Node.evaluate hostNone 10 (.FunctionCall "f" [])
      (.mk [("f", .Function (.UserDefined
        (.mk [] [.FunctionCall "g" [], .Atom (.Number (.finite 1))])))] none)
      = .ok (.Number (.finite 1)) ∧
    Node.evaluate hostNone 10 (.FunctionCall "g" [])
      (.mk [("f", .Function (.UserDefined
        (.mk [] [.FunctionCall "g" [], .Atom (.Number (.finite 1))])))] none)
      = .err "g is not defined" :=
  ⟨rfl, rfl⟩

/-- C3: the claim says evaluating an `Atom` carrying a composite value
forces the composite (list elements evaluated and rewrapped as atoms).
The code's `Atom` branch returns the value unforced — here
`Atom(List[Variable "x"])` with `x ↦ 5` evaluates to the list still
containing the unevaluated `Variable "x"` (first conjunct). The
separate `Value::evaluate`, which is never invoked by `Node::evaluate`,
does produce the forced form described by the claim (second conjunct). -/
theorem claim3_atom_returns_composite_unforced :
    Node.evaluate hostNone 3 (.Atom (.List [.Variable "x"]))
      (.mk [("x", .Number (.finite 5))] none)
      = .ok (.List [.Variable "x"]) ∧
    Value.evaluate hostNone 3 (.List [.Variable "x"])
      (.mk [("x", .Number (.finite 5))] none)
      = .ok (.List [.Atom (.Number (.finite 5))]) :=
  ⟨rfl, rfl⟩

/-- C4 counterexample: on a `Dot` token, `parse_node` does not return an
`UnexpectedToken` parser error as claimed — it is the `unimplemented!()`
panic, not an `Err` of any kind. -/
theorem claim4_counterexample_dot_panics :
    Parser.parse_node 5 { tokens := [.Dot, .EOF], pos := 0 } =
      .panic "not implemented" ∧
    resIsErr (Parser.parse_node 5 { tokens := [.Dot, .EOF], pos := 0 }) = false :=
  ⟨rfl, rfl⟩

/-- C4 as amended: whenever the current token is none of end-of-input, a
literal, an identifier, `[`, or `(` — i.e. a `Dot`, a brace, or a stray
`)` or `]` — `parse_node` panics via `unimplemented!()`; it returns
neither a node nor a `ParserError`. -/
theorem claim4_unimplemented_tokens_panic (fuel : Nat) (p : Parser) (t : Token)
    (h1 : p.tokens.get? p.pos = some t) (h2 : isUnimplementedTok t = true) :
    Parser.parse_node (fuel + 1) p = .panic "not implemented" := by
  simp only [Parser.parse_node, h1]
  cases t <;> simp_all [isUnimplementedTok]

/-- C4 witness: the amended theorem applied to a concrete parser state
whose current token is `Dot`. -/
theorem claim4_witness :
    ({ tokens := [.Dot, .EOF], pos := 0 } : Parser).tokens.get? 0 = some Token.Dot ∧
    isUnimplementedTok Token.Dot = true ∧
    Parser.parse_node (3 + 1) { tokens := [.Dot, .EOF], pos := 0 } =
      .panic "not implemented" :=
  ⟨rfl, rfl, claim4_unimplemented_tokens_panic 3 _ Token.Dot rfl rfl⟩

/-- C5: when the name of a `FunctionCall` resolves to a function value
(native or user-defined) whose declared parameter count differs from the
argument count, evaluation fails with the arity-mismatch error naming
the function, the expected count, and the actual count. The statement
quantifies over every argument list and every host-callback table, so
the same error is produced even for arguments whose evaluation would
fail or diverge and regardless of what the callee would do: the check
happens before any argument is evaluated and before the callee is
invoked. -/
theorem claim5_arity_error_before_args (host : Host) (fuel : Nat)
    (scope : Scope) (name : String) (args : List Node) (f : Function)
    (h1 : scope.get name = some (.Function f))
    (h2 : args.length ≠ f.argNames.length) :
    Node.evaluate host (fuel + 1) (.FunctionCall name args) scope =
      .err (arityMessage name f.argNames.length args.length) := by
  simp [Node.evaluate, h1, h2]

/-- C5 witness: a zero-argument call to a one-parameter user-defined
function produces the arity error naming `f`, 1 expected, 0 given. -/
theorem claim5_witness :
    Scope.get (.mk [("f", .Function (.UserDefined (.mk ["a"] [])))] none) "f" =
      some (.Function (.UserDefined (.mk ["a"] []))) ∧
    ([] : List Node).length ≠ (Function.UserDefined (.mk ["a"] [])).argNames.length ∧
    Node.evaluate hostNone (0 + 1) (.FunctionCall "f" [])
      (.mk [("f", .Function (.UserDefined (.mk ["a"] [])))] none) =
      .err "Function f takes 1 arguments, but 0 were given" :=
  ⟨rfl, by decide,
    claim5_arity_error_before_args hostNone 0
      (.mk [("f", .Function (.UserDefined (.mk ["a"] [])))] none) "f" []
      (.UserDefined (.mk ["a"] [])) rfl (by decide)⟩

/-- C6: whenever `tokenize` succeeds on an input text, the returned
token sequence contains exactly one end-of-input token, and it is the
last element. -/
theorem claim6_tokenize_single_eof (source : String) (toks : List Token)
    (h : (Lexer.new source).tokenize = .ok toks) :
    toks.countP Token.isEOFTok = 1 ∧ toks.getLast? = some Token.EOF := by
  have := tokenizeLoop_ok (strByteLen (Lexer.new source).input + 2)
    (Lexer.new source) [] toks h
  simpa using this

/-- C6 witness: the theorem applied to the input `x`, whose token
sequence is `[Identifier "x", EOF]`. -/
theorem claim6_witness :
    (Lexer.new "x").tokenize = .ok [.Identifier "x", .EOF] ∧
    ([Token.Identifier "x", Token.EOF].countP Token.isEOFTok = 1 ∧
      [Token.Identifier "x", Token.EOF].getLast? = some Token.EOF) :=
  ⟨rfl, claim6_tokenize_single_eof "x" _ rfl⟩

/-- C7: after `set name v` on a child scope, `get name` on the child
returns `v` (first conjunct) while the stored parent scope is the
original parent, untouched — `set` writes only into the current scope's
own map (second conjunct); and any name absent from the child's own map
resolves through the chain to the parent's lookup (third conjunct). -/
theorem claim7_scope_set_get_chain (vars : List (String × Value))
    (parent : Scope) (name n : String) (v : Value) :
    (Scope.set (.mk vars (some parent)) name v).get name = some v ∧
    (Scope.set (.mk vars (some parent)) name v).parent = some parent ∧
    (lookupAssoc vars n = none →
      Scope.get (.mk vars (some parent)) n = parent.get n) := by
  refine ⟨?_, rfl, ?_⟩
  · simp [Scope.set, Scope.get, lookupAssoc_insertAssoc]
  · intro h
    simp [Scope.get, h]

/-- C7 witness: the theorem applied to a child with `a ↦ Null` under a
parent with `b ↦ 2`: setting `a ↦ 7` in the child is visible there, the
parent is unchanged, and `b` (absent from the child) resolves to the
parent's binding. -/
theorem claim7_witness :
    (Scope.set (.mk [("a", .Null)] (some (.mk [("b", .Number (.finite 2))] none)))
        "a" (.Number (.finite 7))).get "a" = some (.Number (.finite 7)) ∧
    (Scope.set (.mk [("a", .Null)] (some (.mk [("b", .Number (.finite 2))] none)))
        "a" (.Number (.finite 7))).parent =
      some (.mk [("b", .Number (.finite 2))] none) ∧
    Scope.get (.mk [("a", .Null)] (some (.mk [("b", .Number (.finite 2))] none))) "b" =
      Scope.get (.mk [("b", .Number (.finite 2))] none) "b" :=
  ⟨(claim7_scope_set_get_chain [("a", .Null)] _ "a" "b" (.Number (.finite 7))).1,
   (claim7_scope_set_get_chain [("a", .Null)] _ "a" "b" (.Number (.finite 7))).2.1,
   (claim7_scope_set_get_chain [("a", .Null)] _ "a" "b" (.Number (.finite 7))).2.2 rfl⟩

/-- C8: every `List`, `Map`, `Function`, and `Null` value fails all
three casts with a `CastError`; a `String` value casts to a number
exactly when the text parses as an `f64`, and to a bool exactly when it
parses as a Rust `bool`. -/
theorem claim8_cast_failures_and_string_parse (l : List Node)
    (m : List (String × Value)) (f : Function) (s : String) :
    (isCastError ((Value.List l).cast_to_number) = true ∧
     isCastError ((Value.List l).cast_to_bool) = true ∧
     isCastError ((Value.List l).cast_to_string) = true) ∧
    (isCastError ((Value.Map m).cast_to_number) = true ∧
     isCastError ((Value.Map m).cast_to_bool) = true ∧
     isCastError ((Value.Map m).cast_to_string) = true) ∧
    (isCastError ((Value.Function f).cast_to_number) = true ∧
     isCastError ((Value.Function f).cast_to_bool) = true ∧
     isCastError ((Value.Function f).cast_to_string) = true) ∧
    (isCastError (Value.Null.cast_to_number) = true ∧
     isCastError (Value.Null.cast_to_bool) = true ∧
     isCastError (Value.Null.cast_to_string) = true) ∧
    isOkExcept ((Value.String s).cast_to_number) = (parseF64 s).isSome ∧
    isOkExcept ((Value.String s).cast_to_bool) = (parseRustBool s).isSome := by
  refine ⟨⟨rfl, rfl, rfl⟩, ⟨rfl, rfl, rfl⟩, ⟨rfl, rfl, rfl⟩, ⟨rfl, rfl, rfl⟩, ?_, ?_⟩
  · cases h : parseF64 s <;> simp [Value.cast_to_number, isOkExcept, h]
  · cases h : parseRustBool s <;> simp [Value.cast_to_bool, isOkExcept, h]

/-- C9: a `run` call that fails — with a lexer, parser, or evaluation
error — leaves the interpreter's global scope exactly as it was.
`Node::evaluate` borrows the global scope immutably and `run` never
writes to it, so the returned state is the input state; the theorem
records this under the claim's hypothesis that the call failed. -/
theorem claim9_failed_run_keeps_global_scope (host : Host) (fuel : Nat)
    (itp : Interpretator) (source : String) (e : RunError)
    (_ : (Interpretator.run host fuel itp source).1 = .err e) :
    (Interpretator.run host fuel itp source).2 = itp := rfl

/-- C9 witness: running `(f)` with `f` unbound fails with the
evaluation error "f is not defined", and the global scope (here holding
`a ↦ Null`) is returned unchanged. -/
theorem claim9_witness :
    (Interpretator.run hostNone 10 { global_scope := .mk [("a", .Null)] none } "(f)").1 =
      .err (.interp (.EvaluationError "f is not defined")) ∧
    (Interpretator.run hostNone 10 { global_scope := .mk [("a", .Null)] none } "(f)").2 =
      { global_scope := .mk [("a", .Null)] none } :=
  ⟨rfl, claim9_failed_run_keeps_global_scope hostNone 10 _ "(f)"
    (.interp (.EvaluationError "f is not defined")) rfl⟩

/-- C10: `cast_to_number` maps `Boolean b` through `(b as i64) as f64`,
giving 1.0 for `true` and 0.0 for `false`; and `cast_to_bool` maps
`Number n` to the IEEE test `n != 0.0`, which holds exactly when `n` is
not the finite value zero (NaN and the infinities compare unequal to
zero; `-0.0` is the same finite zero). The coercion is a zero test, not
a detour through the textual forms used for strings. -/
theorem claim10_bool_number_coercion (n : F64) (b : Bool) :
    (Value.Boolean b).cast_to_number = .ok (boolAsI64AsF64 b) ∧
    boolAsI64AsF64 true = .finite 1 ∧
    boolAsI64AsF64 false = .finite 0 ∧
    (Value.Number n).cast_to_bool = .ok (F64.ieeeNe n (.finite 0)) ∧
    (F64.ieeeNe n (.finite 0) = true ↔ n ≠ .finite 0) := by
  refine ⟨rfl, by norm_num [boolAsI64AsF64], by norm_num [boolAsI64AsF64], rfl, ?_⟩
  cases n <;> simp [F64.ieeeNe, F64.ieeeEq]

end Lisp
